import Mathlib

/-!
# Laravel headless starter - Pulumi infrastructure core, shallow embedding

This file embeds the configuration-resolution and resource-composition core of
the repository's Pulumi program (infrastructure/pulumi/src) in Lean 4:

* the stack-file configuration store (`Store`) and the `Config` accessor class
  (config/index.ts), including the JavaScript truthiness semantics of the
  default operators used there (`||` versus `??`),
* the label utilities (utils/labels.ts) and the label-key constants
  (constants/label-keys.ts),
* the backend resource builders (components/...), at the granularity of the
  Kubernetes objects they describe: object kind, metadata name, namespace,
  labels, selectors, replica counts, stateful-set service names and the primary
  container's environment list.  Container runtime details (images, probes,
  resource limits, security contexts, volume mounts, metrics sidecars) carry no
  identity/selection information and are elided,
* the capability switches of the program entry point (index.ts): database,
  cache, queue, storage and search, in program order, with `config.require`
  failures propagated as the Pulumi runtime propagates a thrown error.

Secrets are modelled as a sum type: a value deferred from the configuration
store versus the hard-coded fallback literal, mirroring
`config.getSecret(k) || pulumi.secret(fallback)`.
-/

namespace LaravelInfra

/-- A deferred Pulumi secret value: either read from the configuration store
under a key, or the hard-coded fallback literal passed to `pulumi.secret`. -/
inductive SecretValue where
  | fromConfig (key : String)
  | literal (value : String)
deriving Repr, DecidableEq

/-- The raw hierarchical configuration store backing `pulumi.Config`
(`get`, `getBoolean`, `getNumber`, `getObject<string[]>`, `getSecret`). -/
structure Store where
  strings : String → Option String
  bools : String → Option Bool
  numbers : String → Option Int
  strLists : String → Option (List String)
  secrets : String → Option String

/-- The store with every key absent. -/
def emptyStore : Store :=
  { strings := fun _ => none
    bools := fun _ => none
    numbers := fun _ => none
    strLists := fun _ => none
    secrets := fun _ => none }

/-- The `Config` class: the Pulumi stack name plus the configuration store. -/
structure Config where
  stack : String
  store : Store

/-- JavaScript `a || d` where `a` is `boolean | undefined`:
`undefined` and `false` are falsy. -/
def jsOrBool (o : Option Bool) (d : Bool) : Bool :=
  match o with
  | some b => b || d
  | none => d

/-- JavaScript `a || d` where `a` is `string | undefined`:
`undefined` and the empty string are falsy. -/
def jsOrStr (o : Option String) (d : String) : String :=
  match o with
  | some s => if s == "" then d else s
  | none => d

/-- JavaScript `a || d` where `a` is `number | undefined`:
`undefined` and `0` are falsy. -/
def jsOrNum (o : Option Int) (d : Int) : Int :=
  match o with
  | some n => if n == 0 then d else n
  | none => d

/-- `config.getSecret(key)`: present exactly when the store has the key. -/
def getSecret (c : Config) (key : String) : Option SecretValue :=
  (c.store.secrets key).map (fun _ => SecretValue.fromConfig key)

/-- `getSecret(key) || pulumi.secret(d)`: a Pulumi `Output` object is always
truthy, so the fallback fires only when the key is absent. -/
def jsOrSecret (o : Option SecretValue) (d : String) : SecretValue :=
  o.getD (SecretValue.literal d)

/-- The error `pulumi.Config.require(key)` raises when the key is absent. -/
def missingMsg (key : String) : String :=
  "Missing required configuration variable: " ++ key

/-- `config.require(key)`: the value, or a thrown error naming the key. -/
def requireCfg (c : Config) (key : String) : Except String String :=
  match c.store.strings key with
  | some v => Except.ok v
  | none => Except.error (missingMsg key)

/-- `Config.isLocal()`. -/
def isLocal (c : Config) : Bool :=
  c.stack == "dev" || c.stack == "local"

/-- `Config.isProduction()`. -/
def isProduction (c : Config) : Bool :=
  c.stack == "production" || c.stack == "prod"

/-- `Config.getStack()`. -/
def getStack (c : Config) : String := c.stack

/-- `Config.getNamespace()`. -/
def getNamespace (c : Config) : String :=
  jsOrStr (c.store.strings "laravel:namespace") ("laravel-" ++ c.stack)

/-- `LaravelConfig` (interfaces), as resolved by `Config.getLaravelConfig`. -/
structure LaravelConfig where
  environment : String
  debug : Bool
  appName : String
  appUrl : String
  appKey : SecretValue
  webReplicas : Int
  webMinReplicas : Int
  webMaxReplicas : Int
  workerReplicas : Int
  workerMinReplicas : Int
  workerMaxReplicas : Int
  reverbReplicas : Int
  reverbMinReplicas : Int
  reverbMaxReplicas : Int
  webMemoryLimit : String
  webMemoryRequest : String
  webCpuLimit : String
  webCpuRequest : String
  workerMemoryLimit : String
  workerMemoryRequest : String
  workerCpuLimit : String
  workerCpuRequest : String
deriving Repr, DecidableEq

/-- `Config.getLaravelConfig()`. -/
def getLaravelConfig (c : Config) : LaravelConfig :=
  { environment := jsOrStr (c.store.strings "laravel:environment") c.stack
    debug := jsOrBool (c.store.bools "laravel:debug") (!(isProduction c))
    appName := jsOrStr (c.store.strings "laravel:appName") "Laravel"
    appUrl := jsOrStr (c.store.strings "laravel:appUrl") "http://localhost"
    appKey := jsOrSecret (getSecret c "laravel:appKey") "base64:changeme"
    webReplicas := jsOrNum (c.store.numbers "laravel:webReplicas") (if isLocal c then 1 else 3)
    webMinReplicas := jsOrNum (c.store.numbers "laravel:webMinReplicas") 1
    webMaxReplicas := jsOrNum (c.store.numbers "laravel:webMaxReplicas") 10
    workerReplicas := jsOrNum (c.store.numbers "laravel:workerReplicas") (if isLocal c then 1 else 2)
    workerMinReplicas := jsOrNum (c.store.numbers "laravel:workerMinReplicas") 1
    workerMaxReplicas := jsOrNum (c.store.numbers "laravel:workerMaxReplicas") 20
    reverbReplicas := jsOrNum (c.store.numbers "laravel:reverbReplicas") 1
    reverbMinReplicas := jsOrNum (c.store.numbers "laravel:reverbMinReplicas") 1
    reverbMaxReplicas := jsOrNum (c.store.numbers "laravel:reverbMaxReplicas") 5
    webMemoryLimit := jsOrStr (c.store.strings "laravel:webMemoryLimit") "512Mi"
    webMemoryRequest := jsOrStr (c.store.strings "laravel:webMemoryRequest") "256Mi"
    webCpuLimit := jsOrStr (c.store.strings "laravel:webCpuLimit") "1"
    webCpuRequest := jsOrStr (c.store.strings "laravel:webCpuRequest") "0.5"
    workerMemoryLimit := jsOrStr (c.store.strings "laravel:workerMemoryLimit") "256Mi"
    workerMemoryRequest := jsOrStr (c.store.strings "laravel:workerMemoryRequest") "128Mi"
    workerCpuLimit := jsOrStr (c.store.strings "laravel:workerCpuLimit") "0.5"
    workerCpuRequest := jsOrStr (c.store.strings "laravel:workerCpuRequest") "0.25" }

/-- `PostgresConfig`. -/
structure PostgresConfig where
  enabled : Bool
  host : String
  port : Int
  database : String
  username : String
  password : SecretValue
  replicas : Int
  storageSize : String
  extensions : Option (List String)
deriving Repr, DecidableEq

/-- `Config.getPostgresConfig()`. -/
def getPostgresConfig (c : Config) : PostgresConfig :=
  let extensions := (c.store.strLists "postgres:extensions").getD []
  { enabled := (c.store.bools "postgres:enabled").getD (isLocal c)
    host := jsOrStr (c.store.strings "postgres:host") "postgres"
    port := jsOrNum (c.store.numbers "postgres:port") 5432
    database := jsOrStr (c.store.strings "postgres:database") "laravel"
    username := jsOrStr (c.store.strings "postgres:username") "laravel"
    password := jsOrSecret (getSecret c "postgres:password") "changeme"
    replicas := jsOrNum (c.store.numbers "postgres:replicas") 1
    storageSize := jsOrStr (c.store.strings "postgres:storageSize") "10Gi"
    extensions := if extensions.length > 0 then some extensions else none }

/-- `MySQLConfig`. -/
structure MySQLConfig where
  enabled : Bool
  host : String
  port : Int
  database : String
  username : String
  password : SecretValue
  version : String
  replicas : Int
  storageSize : String
deriving Repr, DecidableEq

/-- `Config.getMySQLConfig()`. -/
def getMySQLConfig (c : Config) : MySQLConfig :=
  { enabled := (c.store.bools "mysql:enabled").getD false
    host := jsOrStr (c.store.strings "mysql:host") "mysql"
    port := jsOrNum (c.store.numbers "mysql:port") 3306
    database := jsOrStr (c.store.strings "mysql:database") "laravel"
    username := jsOrStr (c.store.strings "mysql:username") "laravel"
    password := jsOrSecret (getSecret c "mysql:password") "changeme"
    version := jsOrStr (c.store.strings "mysql:version") "8.4"
    replicas := jsOrNum (c.store.numbers "mysql:replicas") 1
    storageSize := jsOrStr (c.store.strings "mysql:storageSize") "10Gi" }

/-- `MariaDBConfig`. -/
structure MariaDBConfig where
  enabled : Bool
  host : String
  port : Int
  database : String
  username : String
  password : SecretValue
  version : String
  replicas : Int
  storageSize : String
deriving Repr, DecidableEq

/-- `Config.getMariaDBConfig()`. -/
def getMariaDBConfig (c : Config) : MariaDBConfig :=
  { enabled := (c.store.bools "mariadb:enabled").getD false
    host := jsOrStr (c.store.strings "mariadb:host") "mariadb"
    port := jsOrNum (c.store.numbers "mariadb:port") 3306
    database := jsOrStr (c.store.strings "mariadb:database") "laravel"
    username := jsOrStr (c.store.strings "mariadb:username") "laravel"
    password := jsOrSecret (getSecret c "mariadb:password") "changeme"
    version := jsOrStr (c.store.strings "mariadb:version") "11.4"
    replicas := jsOrNum (c.store.numbers "mariadb:replicas") 1
    storageSize := jsOrStr (c.store.strings "mariadb:storageSize") "10Gi" }

/-- `DatabaseConfig` (unified engine choice for the database capability). -/
structure DatabaseConfig where
  engine : String
  version : String
  extensions : Option (List String)
  enablePostGIS : Bool
  enableTimescaleDB : Bool
deriving Repr, DecidableEq

/-- `Config.getDatabaseConfig()`. -/
def getDatabaseConfig (c : Config) : DatabaseConfig :=
  let extensions := (c.store.strLists "database:extensions").getD []
  { engine := jsOrStr (c.store.strings "database:engine") "postgresql"
    version := jsOrStr (c.store.strings "database:version") "16"
    extensions := if extensions.length > 0 then some extensions else none
    enablePostGIS := jsOrBool (c.store.bools "database:enablePostGIS") false
    enableTimescaleDB := jsOrBool (c.store.bools "database:enableTimescaleDB") false }

/-- `RedisConfig`. -/
structure RedisConfig where
  enabled : Bool
  host : String
  port : Int
  version : Option String
  password : Option SecretValue
  replicas : Int
  tls : Bool
deriving Repr, DecidableEq

/-- `Config.getRedisConfig()`. -/
def getRedisConfig (c : Config) : RedisConfig :=
  { enabled := (c.store.bools "redis:enabled").getD (isLocal c)
    host := jsOrStr (c.store.strings "redis:host") "redis"
    port := jsOrNum (c.store.numbers "redis:port") 6379
    version := c.store.strings "redis:version"
    password := getSecret c "redis:password"
    replicas := jsOrNum (c.store.numbers "redis:replicas") 1
    tls := jsOrBool (c.store.bools "redis:tls") false }

/-- `MemcachedConfig`. -/
structure MemcachedConfig where
  enabled : Bool
  host : String
  port : Int
  version : String
  replicas : Int
deriving Repr, DecidableEq

/-- `Config.getMemcachedConfig()`. -/
def getMemcachedConfig (c : Config) : MemcachedConfig :=
  { enabled := (c.store.bools "memcached:enabled").getD false
    host := jsOrStr (c.store.strings "memcached:host") "memcached"
    port := jsOrNum (c.store.numbers "memcached:port") 11211
    version := jsOrStr (c.store.strings "memcached:version") "1.6"
    replicas := jsOrNum (c.store.numbers "memcached:replicas") 1 }

/-- `CacheConfig` (unified engine choice for the cache capability). -/
structure CacheConfig where
  engine : String
  version : String
  persistence : Option Bool
  evictionPolicy : Option String
deriving Repr, DecidableEq

/-- `Config.getCacheConfig()`. -/
def getCacheConfig (c : Config) : CacheConfig :=
  { engine := jsOrStr (c.store.strings "cache:engine") "redis"
    version := jsOrStr (c.store.strings "cache:version") "7.4"
    persistence := c.store.bools "cache:persistence"
    evictionPolicy := c.store.strings "cache:evictionPolicy" }

/-- `KafkaConfig`. -/
structure KafkaConfig where
  enabled : Bool
  brokers : String
  version : Option String
  replicas : Int
  storageSize : String
  saslMechanism : Option String
  username : Option String
  password : Option SecretValue
deriving Repr, DecidableEq

/-- `Config.getKafkaConfig()`. -/
def getKafkaConfig (c : Config) : KafkaConfig :=
  { enabled := (c.store.bools "kafka:enabled").getD (isLocal c)
    brokers := jsOrStr (c.store.strings "kafka:brokers") "kafka:9092"
    version := c.store.strings "kafka:version"
    replicas := jsOrNum (c.store.numbers "kafka:replicas") 1
    storageSize := jsOrStr (c.store.strings "kafka:storageSize") "10Gi"
    saslMechanism := c.store.strings "kafka:saslMechanism"
    username := c.store.strings "kafka:username"
    password := getSecret c "kafka:password" }

/-- `RabbitMQConfig`. -/
structure RabbitMQConfig where
  enabled : Bool
  host : String
  port : Int
  version : Option String
  managementPort : Int
  username : String
  password : SecretValue
  replicas : Int
  tls : Bool
deriving Repr, DecidableEq

/-- `Config.getRabbitMQConfig()`. -/
def getRabbitMQConfig (c : Config) : RabbitMQConfig :=
  { enabled := (c.store.bools "rabbitmq:enabled").getD (isLocal c)
    host := jsOrStr (c.store.strings "rabbitmq:host") "rabbitmq"
    port := jsOrNum (c.store.numbers "rabbitmq:port") 5672
    version := c.store.strings "rabbitmq:version"
    managementPort := jsOrNum (c.store.numbers "rabbitmq:managementPort") 15672
    username := jsOrStr (c.store.strings "rabbitmq:username") "guest"
    password := jsOrSecret (getSecret c "rabbitmq:password") "guest"
    replicas := jsOrNum (c.store.numbers "rabbitmq:replicas") 1
    tls := jsOrBool (c.store.bools "rabbitmq:tls") false }

/-- `BeanstalkdConfig`. -/
structure BeanstalkdConfig where
  enabled : Bool
  host : String
  port : Int
  version : String
  replicas : Int
deriving Repr, DecidableEq

/-- `Config.getBeanstalkdConfig()`. -/
def getBeanstalkdConfig (c : Config) : BeanstalkdConfig :=
  { enabled := (c.store.bools "beanstalkd:enabled").getD false
    host := jsOrStr (c.store.strings "beanstalkd:host") "beanstalkd"
    port := jsOrNum (c.store.numbers "beanstalkd:port") 11300
    version := jsOrStr (c.store.strings "beanstalkd:version") "latest"
    replicas := jsOrNum (c.store.numbers "beanstalkd:replicas") 1 }

/-- `QueueConfig` (unified engine choice for the queue capability). -/
structure QueueConfig where
  engine : String
  version : String
  managementUI : Option Bool
  kraftMode : Option Bool
deriving Repr, DecidableEq

/-- `Config.getQueueConfig()`. -/
def getQueueConfig (c : Config) : QueueConfig :=
  { engine := jsOrStr (c.store.strings "queue:engine") "rabbitmq"
    version := jsOrStr (c.store.strings "queue:version") "3.13"
    managementUI := c.store.bools "queue:managementUI"
    kraftMode := c.store.bools "queue:kraftMode" }

/-- `StorageConfig`: the discriminated union returned by
`Config.getStorageConfig` (`type: minio` versus `type: s3`). -/
inductive StorageConfig where
  | minio (endpoint accessKey : String) (secretKey : SecretValue)
      (bucket : String) (replicas : Int) (storageSize : String)
  | s3 (bucket region : String) (accessKey secretKey : SecretValue)
deriving Repr, DecidableEq

/-- `Config.getStorageConfig()`; `config.require` may throw. -/
def getStorageConfig (c : Config) : Except String StorageConfig :=
  let minioEnabled := (c.store.bools "minio:enabled").getD (isLocal c)
  if minioEnabled then
    Except.ok (StorageConfig.minio
      (jsOrStr (c.store.strings "minio:endpoint") "http://minio:9000")
      (jsOrStr (c.store.strings "minio:accessKey") "minioadmin")
      (jsOrSecret (getSecret c "minio:secretKey") "minioadmin")
      (jsOrStr (c.store.strings "minio:bucket") "laravel")
      (jsOrNum (c.store.numbers "minio:replicas") 1)
      (jsOrStr (c.store.strings "minio:storageSize") "20Gi"))
  else
    (requireCfg c "s3:bucket").map (fun bucket =>
      StorageConfig.s3 bucket
        (jsOrStr (c.store.strings "s3:region") "us-east-1")
        (jsOrSecret (getSecret c "s3:accessKey") "changeme")
        (jsOrSecret (getSecret c "s3:secretKey") "changeme"))

/-- `SearchConfig`: the discriminated union returned by
`Config.getSearchConfig`. -/
inductive SearchConfig where
  | meilisearch (host : String) (masterKey : SecretValue) (replicas : Int)
  | elasticsearch (host : String) (username : Option String)
      (password : Option SecretValue) (replicas : Int)
deriving Repr, DecidableEq

/-- `Config.getSearchConfig()`; `config.require` may throw. -/
def getSearchConfig (c : Config) : Except String SearchConfig :=
  let meilisearchEnabled := (c.store.bools "meilisearch:enabled").getD true
  if meilisearchEnabled then
    Except.ok (SearchConfig.meilisearch
      (jsOrStr (c.store.strings "meilisearch:host") "http://meilisearch:7700")
      (jsOrSecret (getSecret c "meilisearch:masterKey") "changeme")
      (jsOrNum (c.store.numbers "meilisearch:replicas") 1))
  else
    (requireCfg c "elasticsearch:host").map (fun host =>
      SearchConfig.elasticsearch host
        (c.store.strings "elasticsearch:username")
        (getSecret c "elasticsearch:password")
        (jsOrNum (c.store.numbers "elasticsearch:replicas") 1))

/-- `FeatureFlags`. -/
structure FeatureFlags where
  hpa : Bool
  pdb : Bool
  networkPolicies : Bool
  podSecurityPolicies : Bool
  resourceQuotas : Bool
deriving Repr, DecidableEq

/-- `Config.getFeatureFlags()`. -/
def getFeatureFlags (c : Config) : FeatureFlags :=
  { hpa := (c.store.bools "features:hpa").getD (!(isLocal c))
    pdb := (c.store.bools "features:pdb").getD (isProduction c)
    networkPolicies := (c.store.bools "features:networkPolicies").getD (isProduction c)
    podSecurityPolicies := (c.store.bools "features:podSecurityPolicies").getD (isProduction c)
    resourceQuotas := (c.store.bools "features:resourceQuotas").getD (isProduction c) }

/-! ## Label utilities (constants/label-keys.ts, utils/labels.ts) -/

namespace LabelKeys

/-- `LabelKeys.APP_NAME`. -/
def APP_NAME : String := "app.kubernetes.io/name"

/-- `LabelKeys.APP_VERSION`. -/
def APP_VERSION : String := "app.kubernetes.io/version"

/-- `LabelKeys.APP_COMPONENT`. -/
def APP_COMPONENT : String := "app.kubernetes.io/component"

/-- `LabelKeys.APP_PART_OF`. -/
def APP_PART_OF : String := "app.kubernetes.io/part-of"

/-- `LabelKeys.APP_MANAGED_BY`. -/
def APP_MANAGED_BY : String := "app.kubernetes.io/managed-by"

/-- `LabelKeys.ENVIRONMENT`. -/
def ENVIRONMENT : String := "environment"

end LabelKeys

/-- `generateLabels(name, component, environment, version = "latest")`:
the full identity label map, as an association list in source order. -/
def generateLabels (name component environment : String)
    (version : String := "latest") : List (String × String) :=
  [ (LabelKeys.APP_NAME, name),
    (LabelKeys.APP_COMPONENT, component),
    (LabelKeys.APP_PART_OF, "laravel-stack"),
    (LabelKeys.APP_MANAGED_BY, "pulumi"),
    (LabelKeys.APP_VERSION, version),
    (LabelKeys.ENVIRONMENT, environment) ]

/-- `generateSelectorLabels(name, component)`: the stable selector subset. -/
def generateSelectorLabels (name component : String) : List (String × String) :=
  [ (LabelKeys.APP_NAME, name),
    (LabelKeys.APP_COMPONENT, component) ]

/-! ## Kubernetes resource model

Only the fields that carry identity, selection, replication or environment
wiring are modelled; container runtime details are elided. -/

/-- Object metadata: name, namespace, labels. -/
structure Metadata where
  name : String
  inNamespace : String
  labels : List (String × String)
deriving Repr, DecidableEq

/-- A secret data entry: a plain string or a deferred secret value. -/
inductive SecretData where
  | plain (s : String)
  | secret (v : SecretValue)
deriving Repr, DecidableEq

/-- A Kubernetes `Secret` (name, namespace, labels, `stringData`, type). -/
structure Secret where
  metadata : Metadata
  data : List (String × SecretData)
  type : String := "Opaque"
deriving Repr, DecidableEq

/-- `createSecret(name, namespace, data, labels)` (utils/secrets.ts). -/
def createSecret (name ns : String) (data : List (String × SecretData))
    (labels : List (String × String)) : Secret :=
  { metadata := ⟨name, ns, labels⟩, data := data }

/-- The value of a container environment variable: a literal, a downward-API
field reference, or a secret key reference. -/
inductive EnvValue where
  | value (v : String)
  | fieldRef (fieldPath : String)
  | secretKeyRef (secretName key : String)
deriving Repr, DecidableEq

/-- A container environment variable. -/
structure EnvVar where
  name : String
  val : EnvValue
deriving Repr, DecidableEq

/-- A pod template: metadata labels and the primary container's env list. -/
structure PodTemplate where
  labels : List (String × String)
  env : List EnvVar
deriving Repr, DecidableEq

/-- A `Deployment` (metadata, replicas, pod selector, pod template). -/
structure Deployment where
  metadata : Metadata
  replicas : Int
  selector : List (String × String)
  template : PodTemplate
deriving Repr, DecidableEq

/-- A `StatefulSet` (metadata, headless service name, replicas, pod selector,
pod template, per-replica storage request from `volumeClaimTemplates`). -/
structure StatefulSet where
  metadata : Metadata
  serviceName : String
  replicas : Int
  selector : List (String × String)
  template : PodTemplate
  storageSize : Option String := none
deriving Repr, DecidableEq

/-- A `Service` (metadata, pod selector, ports, headless marker). -/
structure Service where
  metadata : Metadata
  selector : List (String × String)
  ports : List Int
  headless : Bool := false
deriving Repr, DecidableEq

/-- A `Namespace` object (index.ts `createNamespace`). -/
structure NamespaceRes where
  name : String
  labels : List (String × String)
deriving Repr, DecidableEq

/-- Any resource a builder or the composer describes. -/
inductive Resource where
  | ns (n : NamespaceRes)
  | deployment (d : Deployment)
  | statefulSet (s : StatefulSet)
  | service (s : Service)
  | secret (s : Secret)
deriving Repr, DecidableEq

/-- The labels a resource carries. -/
def Resource.labels : Resource → List (String × String)
  | .ns n => n.labels
  | .deployment d => d.metadata.labels
  | .statefulSet s => s.metadata.labels
  | .service s => s.metadata.labels
  | .secret s => s.metadata.labels

/-- The `app.kubernetes.io/name` identity entry of a resource's label map. -/
def Resource.nameLabel (r : Resource) : Option String :=
  (r.labels.find? (fun p => p.1 == LabelKeys.APP_NAME)).map (fun p => p.2)

/-- Whether the resource is a workload (deployment or stateful set). -/
def Resource.isWorkload : Resource → Bool
  | .deployment _ => true
  | .statefulSet _ => true
  | _ => false

/-- Whether the resource is a network service. -/
def Resource.isService : Resource → Bool
  | .service _ => true
  | _ => false

/-- The union of the per-builder TypeScript return interfaces: at most
a workload, a client service, a headless service and a credential secret.
A builder that is skipped returns the all-absent set (`{}` in the source). -/
structure ResourceSet where
  deployment : Option Deployment := none
  statefulSet : Option StatefulSet := none
  service : Option Service := none
  headlessService : Option Service := none
  secret : Option Secret := none
deriving Repr, DecidableEq

/-- The resources a builder's returned set actually describes. -/
def ResourceSet.items (s : ResourceSet) : List Resource :=
  (s.deployment.map Resource.deployment).toList ++
  (s.statefulSet.map Resource.statefulSet).toList ++
  (s.service.map Resource.service).toList ++
  (s.headlessService.map Resource.service).toList ++
  (s.secret.map Resource.secret).toList

/-! ## Resource builders (components/...) -/

/-- JavaScript truthiness of a `string | undefined`. -/
def truthyStr (o : Option String) : Bool :=
  match o with
  | some s => !(s == "")
  | none => false

/-- `createPostgres(config, namespace)` (components, PostgreSQL). -/
def createPostgres (config : Config) (ns : String) : ResourceSet :=
  let postgresConfig := getPostgresConfig config
  let stack := getStack config
  if !postgresConfig.enabled then {} else
  let labels := generateLabels "postgres" "database" stack
  let selectorLabels := generateSelectorLabels "postgres" "database"
  let secret := createSecret "postgres-credentials" ns
    [ ("postgres-password", SecretData.secret postgresConfig.password),
      ("postgres-user", SecretData.plain postgresConfig.username),
      ("postgres-db", SecretData.plain postgresConfig.database) ] labels
  let statefulSet : StatefulSet :=
    { metadata := ⟨"postgres", ns, labels⟩
      serviceName := "postgres"
      replicas := postgresConfig.replicas
      selector := selectorLabels
      template :=
        { labels := labels
          env := [ ⟨"POSTGRES_DB", .secretKeyRef "postgres-credentials" "postgres-db"⟩,
                   ⟨"POSTGRES_USER", .secretKeyRef "postgres-credentials" "postgres-user"⟩,
                   ⟨"POSTGRES_PASSWORD", .secretKeyRef "postgres-credentials" "postgres-password"⟩,
                   ⟨"PGDATA", .value "/var/lib/postgresql/data/pgdata"⟩ ] }
      storageSize := some postgresConfig.storageSize }
  let service : Service :=
    { metadata := ⟨"postgres", ns, labels⟩
      selector := selectorLabels
      ports := [5432, 9187]
      headless := true }
  { statefulSet := some statefulSet, service := some service, secret := some secret }

/-- `createMySQL(config, namespace)` (components/mysql.ts).  The credential
secret is created before the enablement gate, so a disabled MySQL still
returns it under the fixed name `mysql-secret`. -/
def createMySQL (config : Config) (ns : String) : ResourceSet :=
  let mysqlConfig := getMySQLConfig config
  let labels := generateLabels "mysql" "database" (getStack config)
  let secret := createSecret "mysql-secret" ns
    [ ("mysql-root-password", SecretData.secret mysqlConfig.password),
      ("mysql-password", SecretData.secret mysqlConfig.password),
      ("mysql-database", SecretData.plain mysqlConfig.database),
      ("mysql-user", SecretData.plain mysqlConfig.username) ] labels
  if !mysqlConfig.enabled then { secret := some secret } else
  let statefulSet : StatefulSet :=
    { metadata := ⟨"mysql", ns, labels⟩
      serviceName := "mysql"
      replicas := mysqlConfig.replicas
      selector := labels
      template :=
        { labels := labels
          env := [ ⟨"MYSQL_ROOT_PASSWORD", .secretKeyRef "mysql-secret" "mysql-root-password"⟩,
                   ⟨"MYSQL_DATABASE", .secretKeyRef "mysql-secret" "mysql-database"⟩,
                   ⟨"MYSQL_USER", .secretKeyRef "mysql-secret" "mysql-user"⟩,
                   ⟨"MYSQL_PASSWORD", .secretKeyRef "mysql-secret" "mysql-password"⟩ ] }
      storageSize := some mysqlConfig.storageSize }
  let service : Service :=
    { metadata := ⟨"mysql", ns, labels⟩
      selector := labels
      ports := [3306]
      headless := true }
  { statefulSet := some statefulSet, service := some service, secret := some secret }

/-- `createMariaDB(config, namespace)`: same shape as MySQL, fixed secret
name `mariadb-secret`. -/
def createMariaDB (config : Config) (ns : String) : ResourceSet :=
  let mariadbConfig := getMariaDBConfig config
  let labels := generateLabels "mariadb" "database" (getStack config)
  let secret := createSecret "mariadb-secret" ns
    [ ("mariadb-root-password", SecretData.secret mariadbConfig.password),
      ("mariadb-password", SecretData.secret mariadbConfig.password),
      ("mariadb-database", SecretData.plain mariadbConfig.database),
      ("mariadb-user", SecretData.plain mariadbConfig.username) ] labels
  if !mariadbConfig.enabled then { secret := some secret } else
  let statefulSet : StatefulSet :=
    { metadata := ⟨"mariadb", ns, labels⟩
      serviceName := "mariadb"
      replicas := mariadbConfig.replicas
      selector := labels
      template :=
        { labels := labels
          env := [ ⟨"MARIADB_ROOT_PASSWORD", .secretKeyRef "mariadb-secret" "mariadb-root-password"⟩,
                   ⟨"MARIADB_DATABASE", .secretKeyRef "mariadb-secret" "mariadb-database"⟩,
                   ⟨"MARIADB_USER", .secretKeyRef "mariadb-secret" "mariadb-user"⟩,
                   ⟨"MARIADB_PASSWORD", .secretKeyRef "mariadb-secret" "mariadb-password"⟩ ] }
      storageSize := some mariadbConfig.storageSize }
  let service : Service :=
    { metadata := ⟨"mariadb", ns, labels⟩
      selector := labels
      ports := [3306]
      headless := true }
  { statefulSet := some statefulSet, service := some service, secret := some secret }

/-- `createRedis(config, namespace)`: also invoked for the `valkey` cache
engine (wire-protocol-compatible alias). -/
def createRedis (config : Config) (ns : String) : ResourceSet :=
  let redisConfig := getRedisConfig config
  let stack := getStack config
  if !redisConfig.enabled then {} else
  let labels := generateLabels "redis" "cache" stack
  let selectorLabels := generateSelectorLabels "redis" "cache"
  let secret := redisConfig.password.map (fun p =>
    createSecret "redis-password" ns [("redis-password", SecretData.secret p)] labels)
  let deployment : Deployment :=
    { metadata := ⟨"redis", ns, labels⟩
      replicas := redisConfig.replicas
      selector := selectorLabels
      template :=
        { labels := labels
          env := if redisConfig.password.isSome then
                   [⟨"REDIS_PASSWORD", .secretKeyRef "redis-password" "redis-password"⟩]
                 else [] } }
  let service : Service :=
    { metadata := ⟨"redis", ns, labels⟩
      selector := selectorLabels
      ports := [6379, 9121] }
  { deployment := some deployment, service := some service, secret := secret }

/-- `createMemcached(config, namespace)`.  Note: its pod selector is the full
label map, not the selector subset. -/
def createMemcached (config : Config) (ns : String) : ResourceSet :=
  let memcachedConfig := getMemcachedConfig config
  if !memcachedConfig.enabled then {} else
  let labels := generateLabels "memcached" "cache" (getStack config)
  let deployment : Deployment :=
    { metadata := ⟨"memcached", ns, labels⟩
      replicas := memcachedConfig.replicas
      selector := labels
      template := { labels := labels, env := [] } }
  let service : Service :=
    { metadata := ⟨"memcached", ns, labels⟩
      selector := labels
      ports := [11211] }
  { deployment := some deployment, service := some service }

/-- `createKafka(config, namespace)` (components/kafka.ts, KRaft mode). -/
def createKafka (config : Config) (ns : String) : ResourceSet :=
  let kafkaConfig := getKafkaConfig config
  let stack := getStack config
  if !kafkaConfig.enabled then {} else
  let labels := generateLabels "kafka" "messaging" stack
  let selectorLabels := generateSelectorLabels "kafka" "messaging"
  let secret :=
    if truthyStr kafkaConfig.saslMechanism && truthyStr kafkaConfig.username
        && kafkaConfig.password.isSome then
      match kafkaConfig.username, kafkaConfig.password with
      | some u, some p =>
          some (createSecret "kafka-credentials" ns
            [ ("kafka-username", SecretData.plain u),
              ("kafka-password", SecretData.secret p) ] labels)
      | _, _ => none
    else none
  let statefulSet : StatefulSet :=
    { metadata := ⟨"kafka", ns, labels⟩
      serviceName := "kafka-headless"
      replicas := kafkaConfig.replicas
      selector := selectorLabels
      template :=
        { labels := labels
          env := [ ⟨"KAFKA_NODE_ID", .fieldRef "metadata.name"⟩,
                   ⟨"KAFKA_PROCESS_ROLES", .value "broker,controller"⟩,
                   ⟨"KAFKA_CONTROLLER_QUORUM_VOTERS", .value "1@kafka-0.kafka-headless:9093"⟩,
                   ⟨"KAFKA_LISTENERS", .value "PLAINTEXT://:9092,CONTROLLER://:9093"⟩,
                   ⟨"KAFKA_ADVERTISED_LISTENERS", .value "PLAINTEXT://kafka:9092"⟩,
                   ⟨"KAFKA_LISTENER_SECURITY_PROTOCOL_MAP", .value "CONTROLLER:PLAINTEXT,PLAINTEXT:PLAINTEXT"⟩,
                   ⟨"KAFKA_CONTROLLER_LISTENER_NAMES", .value "CONTROLLER"⟩,
                   ⟨"KAFKA_INTER_BROKER_LISTENER_NAME", .value "PLAINTEXT"⟩,
                   ⟨"KAFKA_LOG_DIRS", .value "/var/lib/kafka/data"⟩,
                   ⟨"KAFKA_NUM_NETWORK_THREADS", .value "3"⟩,
                   ⟨"KAFKA_NUM_IO_THREADS", .value "8"⟩,
                   ⟨"KAFKA_SOCKET_SEND_BUFFER_BYTES", .value "102400"⟩,
                   ⟨"KAFKA_SOCKET_RECEIVE_BUFFER_BYTES", .value "102400"⟩,
                   ⟨"KAFKA_SOCKET_REQUEST_MAX_BYTES", .value "104857600"⟩,
                   ⟨"KAFKA_LOG_RETENTION_HOURS", .value "168"⟩,
                   ⟨"KAFKA_LOG_SEGMENT_BYTES", .value "1073741824"⟩,
                   ⟨"KAFKA_JMX_PORT", .value "9999"⟩,
                   ⟨"KAFKA_JMX_HOSTNAME", .value "localhost"⟩ ] }
      storageSize := some kafkaConfig.storageSize }
  let headlessService : Service :=
    { metadata := ⟨"kafka-headless", ns, labels⟩
      selector := selectorLabels
      ports := [9092, 9093, 9308]
      headless := true }
  let service : Service :=
    { metadata := ⟨"kafka", ns, labels⟩
      selector := selectorLabels
      ports := [9092, 9308] }
  { statefulSet := some statefulSet, service := some service,
    headlessService := some headlessService, secret := secret }

/-- `createRabbitMQ(config, namespace)`. -/
def createRabbitMQ (config : Config) (ns : String) : ResourceSet :=
  let rabbitmqConfig := getRabbitMQConfig config
  let stack := getStack config
  if !rabbitmqConfig.enabled then {} else
  let labels := generateLabels "rabbitmq" "messaging" stack
  let selectorLabels := generateSelectorLabels "rabbitmq" "messaging"
  let secret := createSecret "rabbitmq-credentials" ns
    [ ("rabbitmq-username", SecretData.plain rabbitmqConfig.username),
      ("rabbitmq-password", SecretData.secret rabbitmqConfig.password) ] labels
  let statefulSet : StatefulSet :=
    { metadata := ⟨"rabbitmq", ns, labels⟩
      serviceName := "rabbitmq-headless"
      replicas := rabbitmqConfig.replicas
      selector := selectorLabels
      template :=
        { labels := labels
          env := [ ⟨"RABBITMQ_DEFAULT_USER", .secretKeyRef "rabbitmq-credentials" "rabbitmq-username"⟩,
                   ⟨"RABBITMQ_DEFAULT_PASS", .secretKeyRef "rabbitmq-credentials" "rabbitmq-password"⟩,
                   ⟨"RABBITMQ_ERLANG_COOKIE", .value "rabbitmq-cluster-cookie"⟩ ] }
      storageSize := some "10Gi" }
  let headlessService : Service :=
    { metadata := ⟨"rabbitmq-headless", ns, labels⟩
      selector := selectorLabels
      ports := [5672, 15672, 9419]
      headless := true }
  let service : Service :=
    { metadata := ⟨"rabbitmq", ns, labels⟩
      selector := selectorLabels
      ports := [5672, 15672, 9419] }
  { statefulSet := some statefulSet, service := some service,
    headlessService := some headlessService, secret := some secret }

/-- `createBeanstalkd(config, namespace)`. -/
def createBeanstalkd (config : Config) (ns : String) : ResourceSet :=
  let beanstalkdConfig := getBeanstalkdConfig config
  if !beanstalkdConfig.enabled then {} else
  let labels := generateLabels "beanstalkd" "queue" (getStack config)
  let deployment : Deployment :=
    { metadata := ⟨"beanstalkd", ns, labels⟩
      replicas := beanstalkdConfig.replicas
      selector := labels
      template := { labels := labels, env := [] } }
  let service : Service :=
    { metadata := ⟨"beanstalkd", ns, labels⟩
      selector := labels
      ports := [11300] }
  { deployment := some deployment, service := some service }

/-- `createMinio(config, namespace)`: re-resolves the storage configuration,
so a missing required S3 field surfaces as the same thrown error. -/
def createMinio (config : Config) (ns : String) : Except String ResourceSet :=
  match getStorageConfig config with
  | .error e => .error e
  | .ok storageConfig =>
  let stack := getStack config
  match storageConfig with
  | .s3 _ _ _ _ => .ok {}
  | .minio _ accessKey secretKey _ replicas storageSize =>
    let labels := generateLabels "minio" "storage" stack
    let selectorLabels := generateSelectorLabels "minio" "storage"
    let secret := createSecret "minio-credentials" ns
      [ ("root-user", SecretData.plain accessKey),
        ("root-password", SecretData.secret secretKey) ] labels
    let statefulSet : StatefulSet :=
      { metadata := ⟨"minio", ns, labels⟩
        serviceName := "minio-headless"
        replicas := replicas
        selector := selectorLabels
        template :=
          { labels := labels
            env := [ ⟨"MINIO_ROOT_USER", .secretKeyRef "minio-credentials" "root-user"⟩,
                     ⟨"MINIO_ROOT_PASSWORD", .secretKeyRef "minio-credentials" "root-password"⟩,
                     ⟨"MINIO_PROMETHEUS_AUTH_TYPE", .value "public"⟩ ] }
        storageSize := some storageSize }
    let headlessService : Service :=
      { metadata := ⟨"minio-headless", ns, labels⟩
        selector := selectorLabels
        ports := [9000, 9001]
        headless := true }
    let service : Service :=
      { metadata := ⟨"minio", ns, labels⟩
        selector := selectorLabels
        ports := [9000, 9001] }
    .ok { statefulSet := some statefulSet, service := some service,
          headlessService := some headlessService, secret := some secret }

/-- `createMeilisearch(config, namespace)`: re-resolves the search
configuration; the master key is always truthy (it has a secret fallback). -/
def createMeilisearch (config : Config) (ns : String) : Except String ResourceSet :=
  match getSearchConfig config with
  | .error e => .error e
  | .ok searchConfig =>
  let stack := getStack config
  match searchConfig with
  | .elasticsearch _ _ _ _ => .ok {}
  | .meilisearch _ masterKey replicas =>
    let labels := generateLabels "meilisearch" "search" stack
    let selectorLabels := generateSelectorLabels "meilisearch" "search"
    let secret := createSecret "meilisearch-credentials" ns
      [("master-key", SecretData.secret masterKey)] labels
    let deployment : Deployment :=
      { metadata := ⟨"meilisearch", ns, labels⟩
        replicas := replicas
        selector := selectorLabels
        template :=
          { labels := labels
            env := [ ⟨"MEILI_ENV", .value (if stack == "production" then "production" else "development")⟩,
                     ⟨"MEILI_MASTER_KEY", .secretKeyRef "meilisearch-credentials" "master-key"⟩,
                     ⟨"MEILI_HTTP_ADDR", .value "0.0.0.0:7700"⟩,
                     ⟨"MEILI_NO_ANALYTICS", .value "true"⟩ ] } }
    let service : Service :=
      { metadata := ⟨"meilisearch", ns, labels⟩
        selector := selectorLabels
        ports := [7700] }
    .ok { deployment := some deployment, service := some service, secret := some secret }

/-! ## Topology composition (index.ts entry point)

The program runs one linear pass: namespace, then the database, cache, queue,
storage and search capability switches, in that order.  A thrown
`config.require` error aborts the pass where it occurs; the resources of
earlier steps have already been described to the Pulumi engine.  The fixed-role
steps after search (mail catcher, runtime tier, ingress, observability,
GitOps) follow the failure points the claims concern and are not modelled. -/

/-- The database capability switch of index.ts. -/
def composeDatabase (c : Config) (ns : String) : List Resource :=
  match (getDatabaseConfig c).engine with
  | "postgresql" => (createPostgres c ns).items
  | "mysql" => (createMySQL c ns).items
  | "mariadb" => (createMariaDB c ns).items
  | _ => []

/-- The cache capability switch of index.ts; `valkey` routes to the Redis
builder (wire-compatible alias). -/
def composeCache (c : Config) (ns : String) : List Resource :=
  match (getCacheConfig c).engine with
  | "redis" => (createRedis c ns).items
  | "memcached" => (createMemcached c ns).items
  | "valkey" => (createRedis c ns).items
  | _ => []

/-- The queue capability switch of index.ts; for `redis` the builder runs
only when the cache switch has not already assigned the `redis` variable
(the assigned object is truthy even when the builder returned `{}`). -/
def composeQueue (c : Config) (ns : String) (redisAssigned : Bool) : List Resource :=
  match (getQueueConfig c).engine with
  | "kafka" => (createKafka c ns).items
  | "rabbitmq" => (createRabbitMQ c ns).items
  | "beanstalkd" => (createBeanstalkd c ns).items
  | "redis" => if redisAssigned then [] else (createRedis c ns).items
  | "sqs" => []
  | _ => []

/-- The storage step of index.ts: resolve the storage configuration (which may
throw), then build MinIO only when the resolved type is `minio`. -/
def composeStorage (c : Config) (ns : String) : Except String (List Resource) :=
  match getStorageConfig c with
  | .error e => .error e
  | .ok (.minio _ _ _ _ _ _) => (createMinio c ns).map ResourceSet.items
  | .ok (.s3 _ _ _ _) => .ok []

/-- The search step of index.ts: resolve the search configuration (which may
throw), then build Meilisearch only when the resolved type is `meilisearch`. -/
def composeSearch (c : Config) (ns : String) : Except String (List Resource) :=
  match getSearchConfig c with
  | .error e => .error e
  | .ok (.meilisearch _ _ _) => (createMeilisearch c ns).map ResourceSet.items
  | .ok (.elasticsearch _ _ _ _) => .ok []

/-- The single linear composition pass of index.ts, in program order, up to
and including the search step: the resources described so far, and the thrown
error (if any) that aborted the pass. -/
def composeInfra (c : Config) : List Resource × Option String :=
  let stack := getStack c
  let ns := getNamespace c
  let labels := generateLabels "laravel" "infrastructure" stack
  let nsRes := Resource.ns ⟨ns, labels⟩
  let dbItems := composeDatabase c ns
  let cacheItems := composeCache c ns
  let cacheEngine := (getCacheConfig c).engine
  let redisAssigned := cacheEngine == "redis" || cacheEngine == "valkey"
  let queueItems := composeQueue c ns redisAssigned
  let described := nsRes :: (dbItems ++ cacheItems ++ queueItems)
  match composeStorage c ns with
  | .error e => (described, some e)
  | .ok storageItems =>
    match composeSearch c ns with
    | .error e => (described ++ storageItems, some e)
    | .ok searchItems => (described ++ storageItems ++ searchItems, none)

/-! ## StatefulSet ordinal semantics (orchestration platform contract)

A StatefulSet names its pods `<set name>-<ordinal>` for ordinals
`0 .. replicas-1`, and the downward-API `fieldRef: metadata.name` resolves to
the pod's own name.  These are the documented Kubernetes guarantees the Kafka
builder relies on for broker self-identity. -/

/-- The name of the pod at a given ordinal of a stateful set. -/
def statefulSetPodName (ss : StatefulSet) (ordinal : Nat) : String :=
  ss.metadata.name ++ "-" ++ toString ordinal

/-- Resolve an env value inside the pod at the given name; secret references
resolve only at runtime. -/
def resolveEnvValue (podName : String) : EnvValue → Option String
  | .value v => some v
  | .fieldRef fp => if fp == "metadata.name" then some podName else none
  | .secretKeyRef _ _ => none

/-- Look up an environment variable by name in a container env list. -/
def lookupEnv (env : List EnvVar) (n : String) : Option EnvValue :=
  (env.find? (fun e => e.name == n)).map (fun e => e.val)

/-- The self-identity (`KAFKA_NODE_ID`) the broker at a given ordinal sees,
as produced by `createKafka`. -/
def kafkaBrokerNodeId (c : Config) (ns : String) (ordinal : Nat) : Option String :=
  match (createKafka c ns).statefulSet with
  | some ss =>
      (lookupEnv ss.template.env "KAFKA_NODE_ID").bind
        (resolveEnvValue (statefulSetPodName ss ordinal))
  | none => none

/-- The configuration with the `kafka:replicas` number overridden. -/
def setKafkaReplicas (c : Config) (n : Int) : Config :=
  { c with store :=
      { c.store with numbers := fun k =>
          if k == "kafka:replicas" then some n else c.store.numbers k } }

/-! ## Claim-support definitions -/

/-- The database engine enumeration (types, `DatabaseEngine`). -/
def databaseEngines : List String := ["postgresql", "mysql", "mariadb"]

/-- The cache engine enumeration (types, `CacheEngine`). -/
def cacheEngines : List String := ["redis", "memcached", "valkey"]

/-- The queue engine enumeration (types, `QueueEngine`). -/
def queueEngines : List String := ["rabbitmq", "kafka", "beanstalkd", "redis", "sqs"]

/-- The conventional identity-label name of an engine: every engine labels
resources by its own name except `postgresql`, whose builder stamps
`postgres`. -/
def engineOwnNameLabel (e : String) : String :=
  if e == "postgresql" then "postgres" else e

/-- The `app.kubernetes.io/name` value the database switch's builder stamps
for a selected engine. -/
def databaseEngineNameLabel : String → Option String
  | "postgresql" => some "postgres"
  | "mysql" => some "mysql"
  | "mariadb" => some "mariadb"
  | _ => none

/-- The `app.kubernetes.io/name` value the cache switch's builder stamps for
a selected engine; the `valkey` alias routes to the Redis builder. -/
def cacheEngineNameLabel : String → Option String
  | "redis" => some "redis"
  | "memcached" => some "memcached"
  | "valkey" => some "redis"
  | _ => none

/-- The `app.kubernetes.io/name` value the queue switch's builder stamps for
a selected engine; `sqs` is external and produces nothing. -/
def queueEngineNameLabel : String → Option String
  | "kafka" => some "kafka"
  | "rabbitmq" => some "rabbitmq"
  | "beanstalkd" => some "beanstalkd"
  | "redis" => some "redis"
  | _ => none

/-- Classification `local`, no overrides. -/
def localCfg : Config := ⟨"local", emptyStore⟩

/-- Classification `staging`, no overrides. -/
def stagingCfg : Config := ⟨"staging", emptyStore⟩

/-- Classification `production`, no overrides. -/
def prodCfg : Config := ⟨"production", emptyStore⟩

/-- Production with the explicit override `features:hpa = false`. -/
def prodHpaOffCfg : Config :=
  ⟨"production",
    { emptyStore with bools := fun k => if k == "features:hpa" then some false else none }⟩

/-- Staging with the explicit override `laravel:debug = false`. -/
def stagingDebugOffCfg : Config :=
  ⟨"staging",
    { emptyStore with bools := fun k => if k == "laravel:debug" then some false else none }⟩

/-- Local development stack with the cache engine overridden to `valkey`. -/
def valkeyCfg : Config :=
  ⟨"dev",
    { emptyStore with strings := fun k => if k == "cache:engine" then some "valkey" else none }⟩

/-- Local development stack with MinIO disabled and no `s3:bucket` value. -/
def s3MissingCfg : Config :=
  ⟨"dev",
    { emptyStore with bools := fun k => if k == "minio:enabled" then some false else none }⟩

/-- Staging stack with Meilisearch disabled and no `elasticsearch:host`. -/
def esMissingCfg : Config :=
  ⟨"staging",
    { emptyStore with bools := fun k => if k == "meilisearch:enabled" then some false else none }⟩

/-- A local development configuration with no overrides (kafka enabled). -/
def devCfg : Config := ⟨"dev", emptyStore⟩

/-- The first resource the cache switch describes for `localCfg`. -/
def witnessCacheResource : Resource :=
  (composeCache localCfg "laravel-local").getD 0 (Resource.ns ⟨"", []⟩)

/-- Production stack with MinIO disabled by default and an externally managed
bucket configured, so storage resolution succeeds with type `s3`. -/
def s3ExternalCfg : Config :=
  ⟨"production",
    { emptyStore with strings := fun k => if k == "s3:bucket" then some "laravel-bucket" else none }⟩

/-- Production stack with Meilisearch explicitly disabled and an external
Elasticsearch host configured, so search resolution succeeds with type
`elasticsearch`. -/
def esExternalCfg : Config :=
  ⟨"production",
    { emptyStore with
        bools := fun k => if k == "meilisearch:enabled" then some false else none
        strings := fun k => if k == "elasticsearch:host" then some "http://es:9200" else none }⟩

/-- The resource set the MinIO builder returns for `s3ExternalCfg`. -/
def storageExternalSet : ResourceSet :=
  (createMinio s3ExternalCfg "laravel-production").toOption.getD {}

/-- The resource set the Meilisearch builder returns for `esExternalCfg`. -/
def searchExternalSet : ResourceSet :=
  (createMeilisearch esExternalCfg "laravel-production").toOption.getD {}

/-! ## Theorems -/

/-- C9.  The environment classification predicates are mutually exclusive:
`isLocal` holds exactly for stack names `dev` and `local`, `isProduction`
exactly for `production` and `prod`, never both; every other stack name
(including `staging` and case variants such as `Production`) is classified
as neither, so classification-driven defaults take the non-local,
non-production branch. -/
theorem classification_predicates :
    (∀ c : Config, isLocal c = true ↔ (c.stack = "dev" ∨ c.stack = "local"))
    ∧ (∀ c : Config, isProduction c = true ↔ (c.stack = "production" ∨ c.stack = "prod"))
    ∧ (∀ c : Config, isLocal c = false ∨ isProduction c = false)
    ∧ (∀ c : Config, c.stack ≠ "dev" → c.stack ≠ "local" → c.stack ≠ "production" →
        c.stack ≠ "prod" → isLocal c = false ∧ isProduction c = false) := by
  refine ⟨fun c => ?_, fun c => ?_, fun c => ?_, fun c h1 h2 h3 h4 => ?_⟩
  · simp [isLocal]
  · simp [isProduction]
  · by_cases h : c.stack = "dev" ∨ c.stack = "local"
    · right
      simp [isProduction]
      rcases h with h | h <;> rw [h] <;> simp
    · left
      push_neg at h
      simp [isLocal, h.1, h.2]
  · constructor
    · simp [isLocal, h1, h2]
    · simp [isProduction, h3, h4]

/-- C9 witness: the typo stack name `Production` is classified as neither
local nor production. -/
theorem classification_predicates_witness :
    isLocal ⟨"Production", emptyStore⟩ = false
    ∧ isProduction ⟨"Production", emptyStore⟩ = false :=
  classification_predicates.2.2.2 ⟨"Production", emptyStore⟩
    (by decide) (by decide) (by decide) (by decide)

/-- C10.  Outside production the resolved Laravel debug flag is always true:
the resolution is `getBoolean(laravel:debug) || !isProduction()`, so an
explicit `false` override is indistinguishable from an absent one when the
stack is not production. -/
theorem debug_always_true_outside_production :
    ∀ c : Config, isProduction c = false → (getLaravelConfig c).debug = true := by
  intro c h
  unfold getLaravelConfig
  cases hov : c.store.bools "laravel:debug" <;> simp [jsOrBool, hov, h]

/-- C10 witness: on staging with the explicit override `laravel:debug=false`,
debug still resolves true. -/
theorem debug_always_true_outside_production_witness :
    (getLaravelConfig stagingDebugOffCfg).debug = true :=
  debug_always_true_outside_production stagingDebugOffCfg (by decide)

/-- C2 counterexample.  On staging (neither local nor production), with no
overrides, the disruption-budget, network-isolation and resource-quota flags
resolve to `false`, contradicting the claimed default of `on` for staging;
only autoscaling resolves `true` there. -/
theorem feature_flag_staging_counterexample :
    isLocal stagingCfg = false ∧ isProduction stagingCfg = false
    ∧ (getFeatureFlags stagingCfg).pdb = false
    ∧ (getFeatureFlags stagingCfg).networkPolicies = false
    ∧ (getFeatureFlags stagingCfg).resourceQuotas = false
    ∧ (getFeatureFlags stagingCfg).hpa = true := by
  decide

/-- C2 as amended.  Absent overrides, autoscaling (`hpa`) defaults to off
exactly on local stacks and on otherwise, while disruption-budget (`pdb`),
network-isolation (`networkPolicies`) and resource-quotas default to on
exactly on production stacks and off on local and staging. -/
theorem feature_flag_defaults (c : Config)
    (h1 : c.store.bools "features:hpa" = none)
    (h2 : c.store.bools "features:pdb" = none)
    (h3 : c.store.bools "features:networkPolicies" = none)
    (h4 : c.store.bools "features:resourceQuotas" = none) :
    (getFeatureFlags c).hpa = !(isLocal c)
    ∧ (getFeatureFlags c).pdb = isProduction c
    ∧ (getFeatureFlags c).networkPolicies = isProduction c
    ∧ (getFeatureFlags c).resourceQuotas = isProduction c := by
  simp [getFeatureFlags, h1, h2, h3, h4]

/-- C2 witness: on production with no overrides every flag in the claim
defaults to on. -/
theorem feature_flag_defaults_witness :
    (getFeatureFlags prodCfg).hpa = !(isLocal prodCfg)
    ∧ (getFeatureFlags prodCfg).pdb = isProduction prodCfg
    ∧ (getFeatureFlags prodCfg).networkPolicies = isProduction prodCfg
    ∧ (getFeatureFlags prodCfg).resourceQuotas = isProduction prodCfg :=
  feature_flag_defaults prodCfg rfl rfl rfl rfl

/-- C7.  Classification `local` with no overrides: autoscaling off,
disruption budget off, database engine defaults to `postgresql`, cache
engine defaults to `redis`, and the replica count resolves to 1 for both the
database and the cache. -/
theorem local_defaults :
    (getFeatureFlags localCfg).hpa = false
    ∧ (getFeatureFlags localCfg).pdb = false
    ∧ (getDatabaseConfig localCfg).engine = "postgresql"
    ∧ (getCacheConfig localCfg).engine = "redis"
    ∧ (getPostgresConfig localCfg).replicas = 1
    ∧ (getRedisConfig localCfg).replicas = 1 := by
  decide

/-- C8.  Classification `production` with the explicit override
`features:hpa=false`: autoscaling resolves false, although the production
default (no override) is true. -/
theorem production_hpa_override :
    isProduction prodHpaOffCfg = true
    ∧ (getFeatureFlags prodHpaOffCfg).hpa = false
    ∧ (getFeatureFlags prodCfg).hpa = true := by
  decide

/-- C3.  For every (name, component, environment, version), the selector
label map is a proper subset of the full label map — every selector entry
occurs among the labels, and some label entry (the part-of marker) never
occurs among the selector entries — and the selector never contains the
environment key or the version key. -/
theorem selector_proper_subset_of_labels :
    ∀ (name component environment version : String),
      ((generateSelectorLabels name component).all
          (fun p => (generateLabels name component environment version).contains p)) = true
      ∧ ((generateLabels name component environment version).all
          (fun p => (generateSelectorLabels name component).contains p)) = false
      ∧ ((generateSelectorLabels name component).all
          (fun p => !(p.1 == LabelKeys.ENVIRONMENT) && !(p.1 == LabelKeys.APP_VERSION))) = true := by
  intro name component environment version
  refine ⟨?_, ?_, ?_⟩ <;>
    simp [generateLabels, generateSelectorLabels, List.contains, List.all,
      LabelKeys.APP_NAME, LabelKeys.APP_COMPONENT, LabelKeys.APP_PART_OF,
      LabelKeys.APP_MANAGED_BY, LabelKeys.APP_VERSION, LabelKeys.ENVIRONMENT]

/-- C4.  For every backend builder, if the capability's enablement flag
resolves false the returned resource set contains no workload (no deployment,
no stateful set) and no network service.  The eight boolean-gated builders
return the empty set — except MySQL and MariaDB, which still publish their
credential secret under its fixed name — and the storage and search builders,
gated by `minio:enabled` / `meilisearch:enabled` through the resolved
configuration type, return the empty set whenever they return at all. -/
theorem disabled_backend_no_workload_no_service :
    ∀ (c : Config) (ns : String),
      ((getPostgresConfig c).enabled = false → createPostgres c ns = {})
      ∧ ((getRedisConfig c).enabled = false → createRedis c ns = {})
      ∧ ((getKafkaConfig c).enabled = false → createKafka c ns = {})
      ∧ ((getMemcachedConfig c).enabled = false → createMemcached c ns = {})
      ∧ ((getRabbitMQConfig c).enabled = false → createRabbitMQ c ns = {})
      ∧ ((getBeanstalkdConfig c).enabled = false → createBeanstalkd c ns = {})
      ∧ ((getMySQLConfig c).enabled = false →
          (createMySQL c ns).deployment = none ∧ (createMySQL c ns).statefulSet = none
          ∧ (createMySQL c ns).service = none ∧ (createMySQL c ns).headlessService = none
          ∧ ((createMySQL c ns).secret.map (fun s => s.metadata.name)) = some "mysql-secret")
      ∧ ((getMariaDBConfig c).enabled = false →
          (createMariaDB c ns).deployment = none ∧ (createMariaDB c ns).statefulSet = none
          ∧ (createMariaDB c ns).service = none ∧ (createMariaDB c ns).headlessService = none
          ∧ ((createMariaDB c ns).secret.map (fun s => s.metadata.name)) = some "mariadb-secret")
      ∧ ((c.store.bools "minio:enabled").getD (isLocal c) = false →
          ∀ s, createMinio c ns = Except.ok s → s = {})
      ∧ ((c.store.bools "meilisearch:enabled").getD true = false →
          ∀ s, createMeilisearch c ns = Except.ok s → s = {}) := by
  intro c ns
  refine ⟨fun h => ?_, fun h => ?_, fun h => ?_, fun h => ?_, fun h => ?_, fun h => ?_,
    fun h => ?_, fun h => ?_, fun h s hok => ?_, fun h s hok => ?_⟩
  · simp [createPostgres, h]
  · simp [createRedis, h]
  · simp [createKafka, h]
  · simp [createMemcached, h]
  · simp [createRabbitMQ, h]
  · simp [createBeanstalkd, h]
  · simp [createMySQL, h, createSecret]
  · simp [createMariaDB, h, createSecret]
  · unfold createMinio at hok
    cases hb : c.store.strings "s3:bucket" <;>
      simp [getStorageConfig, h, hb, requireCfg, Except.map] at hok
    exact hok.symm
  · unfold createMeilisearch at hok
    cases hb : c.store.strings "elasticsearch:host" <;>
      simp [getSearchConfig, h, hb, requireCfg, Except.map] at hok
    exact hok.symm

/-- C4 witness: on a production stack with no overrides every gated builder
is disabled; the PostgreSQL, Redis and Kafka builders return the empty set,
the MySQL builder still returns its fixed-name credential secret, and the
storage and search builders return the empty set when their engines resolve
to the external S3 / Elasticsearch backends. -/
theorem disabled_backend_witness :
    createPostgres prodCfg "laravel-production" = {}
    ∧ createRedis prodCfg "laravel-production" = {}
    ∧ createKafka prodCfg "laravel-production" = {}
    ∧ ((createMySQL prodCfg "laravel-production").secret.map
        (fun s => s.metadata.name)) = some "mysql-secret"
    ∧ storageExternalSet = {}
    ∧ searchExternalSet = {} :=
  ⟨(disabled_backend_no_workload_no_service prodCfg "laravel-production").1 (by decide),
   (disabled_backend_no_workload_no_service prodCfg "laravel-production").2.1 (by decide),
   (disabled_backend_no_workload_no_service prodCfg "laravel-production").2.2.1 (by decide),
   ((disabled_backend_no_workload_no_service prodCfg "laravel-production").2.2.2.2.2.2.1
      (by decide)).2.2.2.2,
   (disabled_backend_no_workload_no_service s3ExternalCfg "laravel-production").2.2.2.2.2.2.2.2.1
     (by decide) storageExternalSet rfl,
   (disabled_backend_no_workload_no_service esExternalCfg "laravel-production").2.2.2.2.2.2.2.2.2
     (by decide) searchExternalSet rfl⟩

/-- Helper: the broker self-identity produced by `createKafka` is the pod
name at the ordinal whenever Kafka is enabled, and absent otherwise. -/
theorem kafkaBrokerNodeId_eq (c : Config) (ns : String) (i : Nat) :
    kafkaBrokerNodeId c ns i =
      if (getKafkaConfig c).enabled then some ("kafka-" ++ toString i) else none := by
  unfold kafkaBrokerNodeId createKafka
  cases h : (getKafkaConfig c).enabled
  · simp [h]
  · simp only [h, Bool.not_true, Bool.false_eq_true, if_false, if_true, ite_true]
    simp [lookupEnv, resolveEnvValue, statefulSetPodName]

/-- C5.  The Kafka broker's self-identity (`KAFKA_NODE_ID`) is the downward
API reference to the pod's own stateful-set name, hence a function of the
ordinal alone (`kafka-<ordinal>`): it is untouched by the externally supplied
`kafka:replicas` count, so growing the replica set leaves every existing
ordinal's identity unchanged. -/
theorem kafka_broker_identity_from_ordinal :
    (∀ (c : Config) (ns : String) (i : Nat) (n m : Int),
        kafkaBrokerNodeId (setKafkaReplicas c n) ns i
          = kafkaBrokerNodeId (setKafkaReplicas c m) ns i)
    ∧ (∀ (c : Config) (ns : String) (i : Nat),
        (getKafkaConfig c).enabled = true →
        kafkaBrokerNodeId c ns i = some ("kafka-" ++ toString i)) := by
  constructor
  · intro c ns i n m
    rw [kafkaBrokerNodeId_eq, kafkaBrokerNodeId_eq]
    rfl
  · intro c ns i h
    rw [kafkaBrokerNodeId_eq, h]
    simp

/-- C5 witness: with Kafka enabled on a dev stack, ordinal 2 has identity
`kafka-2`, and the identity at ordinal 2 is the same whether the replica
count is 3 or 5. -/
theorem kafka_broker_identity_witness :
    kafkaBrokerNodeId (setKafkaReplicas devCfg 3) "laravel-dev" 2
      = kafkaBrokerNodeId (setKafkaReplicas devCfg 5) "laravel-dev" 2
    ∧ kafkaBrokerNodeId devCfg "laravel-dev" 2 = some "kafka-2" :=
  ⟨kafka_broker_identity_from_ordinal.1 devCfg "laravel-dev" 2 3 5,
   kafka_broker_identity_from_ordinal.2 devCfg "laravel-dev" 2 (by decide)⟩

/-- C6 counterexample.  With MinIO explicitly disabled on a dev stack and no
`s3:bucket` configured, the composition pass does abort with an error naming
the offending field path — but only after resources of the earlier steps
(namespace, database, cache, queue) have already been described, so the
failure does not occur before any resource is described. -/
theorem missing_bucket_after_resources_counterexample :
    (composeInfra s3MissingCfg).2 = some (missingMsg "s3:bucket")
    ∧ (composeInfra s3MissingCfg).1.isEmpty = false := by
  decide

/-- C6 as amended.  When the resolved storage type falls back to external S3
with no `s3:bucket` configured, or the search type falls back to external
Elasticsearch with no `elasticsearch:host`, configuration resolution for that
capability throws an error naming the offending field path — the field is
never silently defaulted — and the composition pass aborts at that step with
the same error (steps before it have already described their resources). -/
theorem missing_required_field_aborts (c : Config) :
    ((c.store.bools "minio:enabled").getD (isLocal c) = false →
      c.store.strings "s3:bucket" = none →
      getStorageConfig c = Except.error (missingMsg "s3:bucket"))
    ∧ ((c.store.bools "meilisearch:enabled").getD true = false →
      c.store.strings "elasticsearch:host" = none →
      getSearchConfig c = Except.error (missingMsg "elasticsearch:host"))
    ∧ (∀ e, getStorageConfig c = Except.error e → (composeInfra c).2 = some e)
    ∧ (∀ rs, getStorageConfig c = Except.ok rs → ∀ msg,
        getSearchConfig c = Except.error msg → (composeInfra c).2 = some msg) := by
  refine ⟨fun h1 h2 => ?_, fun h1 h2 => ?_, fun e h => ?_, fun rs h msg hmsg => ?_⟩
  · simp [getStorageConfig, h1, h2, requireCfg, Except.map]
  · simp [getSearchConfig, h1, h2, requireCfg, Except.map]
  · simp [composeInfra, composeStorage, h]
  · cases rs <;>
      simp [composeInfra, composeStorage, composeSearch, createMinio, h, hmsg, Except.map]

/-- C6 witness: the missing-bucket and missing-host errors at concrete
configurations, both identifying the offending field path. -/
theorem missing_required_field_aborts_witness :
    getStorageConfig s3MissingCfg = Except.error (missingMsg "s3:bucket")
    ∧ getSearchConfig esMissingCfg = Except.error (missingMsg "elasticsearch:host")
    ∧ (composeInfra s3MissingCfg).2 = some (missingMsg "s3:bucket") :=
  ⟨(missing_required_field_aborts s3MissingCfg).1 (by decide) rfl,
   (missing_required_field_aborts esMissingCfg).2.1 (by decide) rfl,
   (missing_required_field_aborts s3MissingCfg).2.2.1 (missingMsg "s3:bucket")
     ((missing_required_field_aborts s3MissingCfg).1 (by decide) rfl)⟩

/-- Helper: a resource whose labels are a `generateLabels` map has that
map's name as its identity entry. -/
theorem nameLabel_eq_of_labels (r : Resource) (nm comp env ver : String)
    (h : r.labels = generateLabels nm comp env ver) :
    Resource.nameLabel r = some nm := by
  simp [Resource.nameLabel, h, generateLabels, LabelKeys.APP_NAME]

/-- Helper: every resource `createPostgres` describes carries the identity
label `postgres`. -/
theorem nameLabel_createPostgres (c : Config) (ns : String) (r : Resource)
    (hr : r ∈ (createPostgres c ns).items) : Resource.nameLabel r = some "postgres" := by
  unfold createPostgres at hr
  cases h : (getPostgresConfig c).enabled <;> simp [ResourceSet.items, h] at hr
  rcases hr with rfl | rfl | rfl <;>
    exact nameLabel_eq_of_labels _ "postgres" "database" (getStack c) "latest" rfl

/-- Helper: every resource `createMySQL` describes carries the identity
label `mysql`. -/
theorem nameLabel_createMySQL (c : Config) (ns : String) (r : Resource)
    (hr : r ∈ (createMySQL c ns).items) : Resource.nameLabel r = some "mysql" := by
  unfold createMySQL at hr
  cases h : (getMySQLConfig c).enabled <;> simp [ResourceSet.items, h, createSecret] at hr
  · subst hr
    exact nameLabel_eq_of_labels _ "mysql" "database" (getStack c) "latest" rfl
  · rcases hr with rfl | rfl | rfl <;>
      exact nameLabel_eq_of_labels _ "mysql" "database" (getStack c) "latest" rfl

/-- Helper: every resource `createMariaDB` describes carries the identity
label `mariadb`. -/
theorem nameLabel_createMariaDB (c : Config) (ns : String) (r : Resource)
    (hr : r ∈ (createMariaDB c ns).items) : Resource.nameLabel r = some "mariadb" := by
  unfold createMariaDB at hr
  cases h : (getMariaDBConfig c).enabled <;> simp [ResourceSet.items, h, createSecret] at hr
  · subst hr
    exact nameLabel_eq_of_labels _ "mariadb" "database" (getStack c) "latest" rfl
  · rcases hr with rfl | rfl | rfl <;>
      exact nameLabel_eq_of_labels _ "mariadb" "database" (getStack c) "latest" rfl

/-- Helper: every resource `createRedis` describes carries the identity
label `redis` — also when the builder was reached through the `valkey`
alias, since the builder stamps its own name unconditionally. -/
theorem nameLabel_createRedis (c : Config) (ns : String) (r : Resource)
    (hr : r ∈ (createRedis c ns).items) : Resource.nameLabel r = some "redis" := by
  unfold createRedis at hr
  cases h : (getRedisConfig c).enabled <;>
    rcases hpw : (getRedisConfig c).password with _ | p <;>
    simp [ResourceSet.items, h, hpw] at hr
  · rcases hr with rfl | rfl <;>
      exact nameLabel_eq_of_labels _ "redis" "cache" (getStack c) "latest" rfl
  · rcases hr with rfl | rfl | rfl <;>
      exact nameLabel_eq_of_labels _ "redis" "cache" (getStack c) "latest" rfl

/-- Helper: every resource `createMemcached` describes carries the identity
label `memcached`. -/
theorem nameLabel_createMemcached (c : Config) (ns : String) (r : Resource)
    (hr : r ∈ (createMemcached c ns).items) : Resource.nameLabel r = some "memcached" := by
  unfold createMemcached at hr
  cases h : (getMemcachedConfig c).enabled <;> simp [ResourceSet.items, h] at hr
  rcases hr with rfl | rfl <;>
    exact nameLabel_eq_of_labels _ "memcached" "cache" (getStack c) "latest" rfl

/-- Helper: every resource `createKafka` describes carries the identity
label `kafka`. -/
theorem nameLabel_createKafka (c : Config) (ns : String) (r : Resource)
    (hr : r ∈ (createKafka c ns).items) : Resource.nameLabel r = some "kafka" := by
  unfold createKafka at hr
  cases h : (getKafkaConfig c).enabled <;>
    cases hu : (getKafkaConfig c).username <;> cases hp : (getKafkaConfig c).password <;>
    cases hs : truthyStr (getKafkaConfig c).saslMechanism <;>
    simp [ResourceSet.items, h, hu, hp, hs] at hr
  all_goals
    (rcases hr with rfl | rfl | rfl | ⟨-, rfl⟩) <;>
    exact nameLabel_eq_of_labels _ "kafka" "messaging" (getStack c) "latest" rfl

/-- Helper: every resource `createRabbitMQ` describes carries the identity
label `rabbitmq`. -/
theorem nameLabel_createRabbitMQ (c : Config) (ns : String) (r : Resource)
    (hr : r ∈ (createRabbitMQ c ns).items) : Resource.nameLabel r = some "rabbitmq" := by
  unfold createRabbitMQ at hr
  cases h : (getRabbitMQConfig c).enabled <;> simp [ResourceSet.items, h] at hr
  rcases hr with rfl | rfl | rfl | rfl <;>
    exact nameLabel_eq_of_labels _ "rabbitmq" "messaging" (getStack c) "latest" rfl

/-- Helper: every resource `createBeanstalkd` describes carries the identity
label `beanstalkd`. -/
theorem nameLabel_createBeanstalkd (c : Config) (ns : String) (r : Resource)
    (hr : r ∈ (createBeanstalkd c ns).items) : Resource.nameLabel r = some "beanstalkd" := by
  unfold createBeanstalkd at hr
  cases h : (getBeanstalkdConfig c).enabled <;> simp [ResourceSet.items, h] at hr
  rcases hr with rfl | rfl <;>
    exact nameLabel_eq_of_labels _ "beanstalkd" "queue" (getStack c) "latest" rfl

/-- Helper: every resource `createMinio` describes carries the identity
label `minio`. -/
theorem nameLabel_createMinio (c : Config) (ns : String) (s : ResourceSet) (r : Resource)
    (hok : createMinio c ns = Except.ok s) (hr : r ∈ s.items) :
    Resource.nameLabel r = some "minio" := by
  unfold createMinio at hok
  cases hsc : getStorageConfig c <;> rw [hsc] at hok
  · exact absurd hok (by simp)
  · rename_i sc
    cases sc
    · cases hok
      simp [ResourceSet.items] at hr
      rcases hr with rfl | rfl | rfl | rfl <;>
        exact nameLabel_eq_of_labels _ "minio" "storage" (getStack c) "latest" rfl
    · cases hok
      simp [ResourceSet.items] at hr

/-- Helper: every resource `createMeilisearch` describes carries the identity
label `meilisearch`. -/
theorem nameLabel_createMeilisearch (c : Config) (ns : String) (s : ResourceSet) (r : Resource)
    (hok : createMeilisearch c ns = Except.ok s) (hr : r ∈ s.items) :
    Resource.nameLabel r = some "meilisearch" := by
  unfold createMeilisearch at hok
  cases hsc : getSearchConfig c <;> rw [hsc] at hok
  · exact absurd hok (by simp)
  · rename_i sc
    cases sc
    · cases hok
      simp [ResourceSet.items] at hr
      rcases hr with rfl | rfl | rfl <;>
        exact nameLabel_eq_of_labels _ "meilisearch" "search" (getStack c) "latest" rfl
    · cases hok
      simp [ResourceSet.items] at hr

/-- C1 counterexample.  Selecting the cache engine `valkey` routes to the
shared Redis builder, and every produced resource is recorded under the
identity label `redis` — the name of another engine in the cache
enumeration — not under valkey's own identity label. -/
theorem valkey_identity_label_counterexample :
    (getCacheConfig valkeyCfg).engine = "valkey"
    ∧ (composeCache valkeyCfg (getNamespace valkeyCfg)).map Resource.nameLabel
        = [some "redis", some "redis"]
    ∧ "redis" ∈ cacheEngines ∧ ("redis" : String) ≠ "valkey" := by
  decide

/-- C1 as amended.  Every resource a capability switch produces carries the
name label of the builder the selected engine routes to.  For every engine
other than the `valkey` alias that label is the engine's own conventional
name, and the conventional names within each enumeration are pairwise
distinct — so a non-alias selection never produces a resource recorded under
another engine's identity.  The `valkey` alias routes to the Redis builder
and its resources are recorded under `redis`, the shared builder's identity
label, not under valkey's own. -/
theorem engine_identity_labels :
    (cacheEngineNameLabel "valkey" = some "redis" ∧ ("redis" : String) ≠ "valkey"
      ∧ (databaseEngines.map engineOwnNameLabel).Nodup
      ∧ (cacheEngines.map engineOwnNameLabel).Nodup
      ∧ (queueEngines.map engineOwnNameLabel).Nodup
      ∧ (databaseEngines.all
          (fun e => databaseEngineNameLabel e == some (engineOwnNameLabel e))) = true
      ∧ (cacheEngines.all
          (fun e => e == "valkey" || cacheEngineNameLabel e == some (engineOwnNameLabel e))) = true
      ∧ (queueEngines.all
          (fun e => e == "sqs" || queueEngineNameLabel e == some (engineOwnNameLabel e))) = true)
    ∧ (∀ (c : Config) (ns : String) (r : Resource), r ∈ composeDatabase c ns →
        Resource.nameLabel r = databaseEngineNameLabel (getDatabaseConfig c).engine)
    ∧ (∀ (c : Config) (ns : String) (r : Resource), r ∈ composeCache c ns →
        Resource.nameLabel r = cacheEngineNameLabel (getCacheConfig c).engine)
    ∧ (∀ (c : Config) (ns : String) (b : Bool) (r : Resource), r ∈ composeQueue c ns b →
        Resource.nameLabel r = queueEngineNameLabel (getQueueConfig c).engine)
    ∧ (∀ (c : Config) (ns : String) (rs : List Resource) (r : Resource),
        composeStorage c ns = Except.ok rs → r ∈ rs → Resource.nameLabel r = some "minio")
    ∧ (∀ (c : Config) (ns : String) (rs : List Resource) (r : Resource),
        composeSearch c ns = Except.ok rs → r ∈ rs →
        Resource.nameLabel r = some "meilisearch") := by
  refine ⟨by decide, ?_, ?_, ?_, ?_, ?_⟩
  · intro c ns r hr
    unfold composeDatabase at hr
    split at hr
    · rename_i heq
      rw [heq]
      exact nameLabel_createPostgres c ns r hr
    · rename_i heq
      rw [heq]
      exact nameLabel_createMySQL c ns r hr
    · rename_i heq
      rw [heq]
      exact nameLabel_createMariaDB c ns r hr
    · simp at hr
  · intro c ns r hr
    unfold composeCache at hr
    split at hr
    · rename_i heq
      rw [heq]
      exact nameLabel_createRedis c ns r hr
    · rename_i heq
      rw [heq]
      exact nameLabel_createMemcached c ns r hr
    · rename_i heq
      rw [heq]
      exact nameLabel_createRedis c ns r hr
    · simp at hr
  · intro c ns b r hr
    unfold composeQueue at hr
    split at hr
    · rename_i heq
      rw [heq]
      exact nameLabel_createKafka c ns r hr
    · rename_i heq
      rw [heq]
      exact nameLabel_createRabbitMQ c ns r hr
    · rename_i heq
      rw [heq]
      exact nameLabel_createBeanstalkd c ns r hr
    · rename_i heq
      rw [heq]
      cases b <;> simp at hr
      exact nameLabel_createRedis c ns r hr
    · simp at hr
    · simp at hr
  · intro c ns rs r hok hr
    unfold composeStorage at hok
    cases hsc : getStorageConfig c <;> rw [hsc] at hok
    · exact absurd hok (by simp)
    · rename_i sc
      cases sc
      · cases hmin : createMinio c ns <;> rw [hmin] at hok <;>
          simp [Except.map] at hok
        subst hok
        exact nameLabel_createMinio c ns _ r hmin hr
      · cases hok
        simp at hr
  · intro c ns rs r hok hr
    unfold composeSearch at hok
    cases hsc : getSearchConfig c <;> rw [hsc] at hok
    · exact absurd hok (by simp)
    · rename_i sc
      cases sc
      · cases hmin : createMeilisearch c ns <;> rw [hmin] at hok <;>
          simp [Except.map] at hok
        subst hok
        exact nameLabel_createMeilisearch c ns _ r hmin hr
      · cases hok
        simp at hr

/-- C1 witness: the first resource the cache switch describes under the
default engine at a local classification carries that engine's identity
label. -/
theorem engine_identity_labels_witness :
    Resource.nameLabel witnessCacheResource
      = cacheEngineNameLabel (getCacheConfig localCfg).engine :=
  engine_identity_labels.2.2.1 localCfg "laravel-local" witnessCacheResource (by decide)

end LaravelInfra
